import Mathlib

/-!
Shallow embedding of `src/api/pdfProcessor.js` (class `PDFProcessor`).

Modelling conventions:
* A PDF document (`pdf-lib` `PDFDocument`) is a list of pages in order.
* A page carries its media-box dimensions (`width`, `height`), its crop box,
  its extracted text content and the list of strings drawn onto it.
  In `pdf-lib`, `PDFPage.getSize()` returns the *media box* width/height
  (`getSize` is implemented via `getMediaBox`), and `setCropBox` changes only
  the crop box, never the media box; the embedding mirrors that.
* Numeric page coordinates are modelled as rationals (JS numbers; all
  arithmetic used by the program is subtraction/comparison, exact here).
* `parseInt(settings.margin)` yields an integer, modelled as `Int`.
* Fallible steps (file read + `PDFDocument.load`) are modelled with
  `Except String`; the message is the underlying error's message.
* `copyPages` copies a page unchanged into a new document, so copying is
  the identity on the page value.
-/

/-- A crop/media rectangle `(x, y, width, height)` in points, origin bottom-left. -/
structure Rect where
  x : ℚ
  y : ℚ
  width : ℚ
  height : ℚ
deriving DecidableEq, Repr

/-- A page of a document: media-box size, current crop box, the text that
text-extraction returns for it, and the strings stamped onto it. -/
structure Page where
  width : ℚ
  height : ℚ
  cropBox : Rect
  text : String
  drawn : List String
deriving DecidableEq, Repr

/-- A document is its ordered list of pages. -/
abbrev Doc := List Page

/-- `page.setCropBox(x, y, w, h)` from pdf-lib: replaces only the crop box. -/
def setCropBox (p : Page) (x y w h : ℚ) : Page :=
  { p with cropBox := ⟨x, y, w, h⟩ }

/-- A point `{x, y}` as in the nested literals of `CROP_PRESETS`. -/
structure PtXY where
  x : ℚ
  y : ℚ
deriving DecidableEq, Repr

/-- `pageSize: { width, height }` of the flipkart preset. -/
structure SizeWH where
  width : ℚ
  height : ℚ
deriving DecidableEq, Repr

/-- The `cropBox` object literal of the flipkart preset (all its fields). -/
structure CropBoxSpec where
  topLeft : PtXY
  bottomRight : PtXY
  x : ℚ
  y : ℚ
  width : ℚ
  height : ℚ
deriving DecidableEq, Repr

/-- One value of the `CROP_PRESETS` mapping: either a fixed-box preset
(flipkart) or a margin preset (all other platforms). -/
structure Preset where
  pageSize : Option SizeWH := none
  cropBox : Option CropBoxSpec := none
  margin : Option ℚ := none
deriving DecidableEq, Repr

/-- The `flipkart` entry of `CROP_PRESETS` (lines 8-19 of the source). -/
def flipkartPreset : Preset :=
  { pageSize := some ⟨595, 842⟩
    cropBox := some
      { topLeft := ⟨272, 36⟩
        bottomRight := ⟨618, 589⟩
        x := 272
        y := 253          -- 842 - 589
        width := 346      -- 618 - 272
        height := 553 }   -- 589 - 36
    margin := none }

/-- `PDFProcessor.CROP_PRESETS` as a lookup on the object's own keys. -/
def CROP_PRESETS (platform : String) : Option Preset :=
  if platform = "flipkart" then some flipkartPreset
  else if platform = "meesho" then some { margin := some 40 }
  else if platform = "amazon" then some { margin := some 45 }
  else if platform = "citymall" then some { margin := some 35 }
  else if platform = "custom" then some { margin := some 50 }
  else none

/-- `getPlatformPreset(platform)` restricted to own-property lookup:
`CROP_PRESETS[platform] || CROP_PRESETS.custom` with the fallback taken on a
missing own key.  This is faithful for every `platform` that is not a property
name inherited from `Object.prototype`; the full bracket-lookup semantics,
inherited members included, is `getPlatformPresetJS` below.  Inside
`processPDF` the two agree on every consulted value: the preset is only read
under `settings.platform === 'flipkart'` (line 106), an own key. -/
def getPlatformPreset (platform : String) : Preset :=
  (CROP_PRESETS platform).getD { margin := some 50 }

/-- The property names every plain object literal inherits from
`Object.prototype`; each is bound to a truthy value (a function, or the
prototype object itself for the `__proto__` accessor). -/
def objectPrototypeKeys : List String :=
  ["constructor", "hasOwnProperty", "isPrototypeOf", "propertyIsEnumerable",
   "toLocaleString", "toString", "valueOf", "__defineGetter__",
   "__defineSetter__", "__lookupGetter__", "__lookupSetter__", "__proto__"]

/-- The value of the JS expression `CROP_PRESETS[platform]`: an own data
property (a preset), a truthy member inherited from `Object.prototype`, or
`undefined` (falsy). -/
inductive JsLookup where
  | preset (p : Preset)
  | inherited (name : String)
  | undefinedV
deriving DecidableEq, Repr

/-- `CROP_PRESETS[platform]` with the prototype chain included: own keys
first, then the `Object.prototype` members, then `undefined`. -/
def cropPresetsGet (platform : String) : JsLookup :=
  match CROP_PRESETS platform with
  | some p => .preset p
  | none => if platform ∈ objectPrototypeKeys then .inherited platform else .undefinedV

/-- `getPlatformPreset` with the full JS lookup semantics of
`this.CROP_PRESETS[platform] || this.CROP_PRESETS.custom`: `||` keeps any
truthy lookup result — including a member inherited from `Object.prototype` —
and falls through to the custom preset only on `undefined`. -/
def getPlatformPresetJS (platform : String) : JsLookup :=
  match cropPresetsGet platform with
  | .undefinedV => .preset { margin := some 50 }
  | v => v

/-- `applyMarginCrop` body for one page: reads the media-box size
(`page.getSize()`), and sets the crop box only when both computed
dimensions are positive. -/
def applyMarginCropPage (marginPx : Int) (p : Page) : Page :=
  let newWidth : ℚ := p.width - 2 * marginPx
  let newHeight : ℚ := p.height - 2 * marginPx
  if 0 < newWidth ∧ 0 < newHeight then
    setCropBox p marginPx marginPx newWidth newHeight
  else
    p

/-- `PDFProcessor.applyMarginCrop(pdfDoc, marginPx)`: the per-page loop. -/
def applyMarginCrop (marginPx : Int) (doc : Doc) : Doc :=
  doc.map (applyMarginCropPage marginPx)

/-- `PDFProcessor.cropFlipkart(pdfDoc, cropBox)`: copies every page into a new
document and sets the hardcoded crop box `setCropBox(165, 460, 265, 360)`;
the `cropBox` argument is never used. -/
def cropFlipkart (doc : Doc) (cropBox : CropBoxSpec) : Doc :=
  let _ := cropBox
  doc.map (fun p => setCropBox p 165 460 265 360)

/-!
### Regex model for `extractSKUFromPage`

The three patterns of lines 52-61 use only: character classes, case-insensitive
literals, greedy `+`/`*`, lazy `+?`/`*?`, and one capture group.  We embed a
backtracking matcher with JS semantics: leftmost starting position wins, and at
a given position alternatives are explored in the regex's preference order
(greedy consumes first, lazy yields first), the first full match winning.
-/

/-- JS `\s` restricted to the ASCII whitespace characters (the texts handled
here contain no Unicode whitespace). -/
def isSpaceJS (c : Char) : Bool :=
  c = ' ' || c = '\t' || c = '\n' || c = '\r' || c = '\x0b' || c = '\x0c'

/-- The capture class `[a-zA-Z0-9_\s-]` (the `i` flag adds nothing to it). -/
def isSkuChar (c : Char) : Bool :=
  c.isAlpha || c.isDigit || c = '_' || isSpaceJS c || c = '-'

/-- One atom of a pattern: a class with its quantifier.  A case-insensitive
literal `c` is `cls` of "same letter up to case". -/
inductive RItem where
  | cls (p : Char → Bool)
  | plusGreedy (p : Char → Bool)
  | plusLazy (p : Char → Bool)
  | starGreedy (p : Char → Bool)
  | starLazy (p : Char → Bool)

/-- Case-insensitive literal (`i` flag). -/
def litCI (ch : Char) : RItem := .cls (fun c => c.toLower = ch.toLower)

/-- Greedy `p*`: consume as much as possible, backtracking into the
continuation `k` from the longest prefix downwards. -/
def mStarGreedy (p : Char → Bool) (k : List Char → Option (List Char)) :
    List Char → Option (List Char)
  | [] => k []
  | c :: rest =>
    if p c then
      match mStarGreedy p k rest with
      | some r => some r
      | none => k (c :: rest)
    else k (c :: rest)

/-- Lazy `p*?`: try the continuation first, consuming one more char only on
failure. -/
def mStarLazy (p : Char → Bool) (k : List Char → Option (List Char)) :
    List Char → Option (List Char)
  | [] => k []
  | c :: rest =>
    match k (c :: rest) with
    | some r => some r
    | none => if p c then mStarLazy p k rest else none

/-- Match one atom against the input, then run the continuation on the rest. -/
def mItem : RItem → (List Char → Option (List Char)) → List Char → Option (List Char)
  | .cls p, k, c :: rest => if p c then k rest else none
  | .cls _, _, [] => none
  | .plusGreedy p, k, c :: rest => if p c then mStarGreedy p k rest else none
  | .plusGreedy _, _, [] => none
  | .plusLazy p, k, c :: rest => if p c then mStarLazy p k rest else none
  | .plusLazy _, _, [] => none
  | .starGreedy p, k, s => mStarGreedy p k s
  | .starLazy p, k, s => mStarLazy p k s

/-- Match a sequence of atoms, continuation-style. -/
def mSeq : List RItem → (List Char → Option (List Char)) → List Char → Option (List Char)
  | [], k, s => k s
  | it :: its, k, s => mItem it (mSeq its k) s

/-- Try to match `pre (cap) post` at the current position; on success return
the substring consumed by the capture group. -/
def matchAt (pre cap post : List RItem) (s : List Char) : Option (List Char) :=
  mSeq pre (fun r1 =>
    mSeq cap (fun r2 =>
      mSeq post (fun _ => some (r1.take (r1.length - r2.length))) r2) r1) s

/-- `text.match(re)` for a non-global regex: try each starting position from
the left, return the first position's capture. -/
def findFirst (pre cap post : List RItem) : List Char → Option (List Char)
  | [] => matchAt pre cap post []
  | c :: rest =>
    match matchAt pre cap post (c :: rest) with
    | some capt => some capt
    | none => findFirst pre cap post rest

/-- Pattern 1, `/\d+\s+([a-zA-Z0-9_\s-]+?)\s*\|\s*[A-Z]/i`, split at its
capture group ([A-Z] with the i flag matches any ASCII letter). -/
def pat1Pre : List RItem := [.plusGreedy (·.isDigit), .plusGreedy isSpaceJS]
def pat1Cap : List RItem := [.plusLazy isSkuChar]
def pat1Post : List RItem :=
  [.starGreedy isSpaceJS, litCI '|', .starGreedy isSpaceJS, .cls (·.isAlpha)]

/-- Pattern 2, `/QTY\s+\d+\s+([a-zA-Z0-9_\s-]+?)\s*\|/i`. -/
def pat2Pre : List RItem :=
  [litCI 'Q', litCI 'T', litCI 'Y', .plusGreedy isSpaceJS,
   .plusGreedy (·.isDigit), .plusGreedy isSpaceJS]
def pat2Cap : List RItem := [.plusLazy isSkuChar]
def pat2Post : List RItem := [.starGreedy isSpaceJS, litCI '|']

/-- Pattern 3, `/SKU ID.*?QTY\s+\d+\s+([a-zA-Z0-9_\s-]+?)\s*\|/is`
(`s` flag: `.` matches every character). -/
def pat3Pre : List RItem :=
  [litCI 'S', litCI 'K', litCI 'U', litCI ' ', litCI 'I', litCI 'D',
   .starLazy (fun _ => true),
   litCI 'Q', litCI 'T', litCI 'Y', .plusGreedy isSpaceJS,
   .plusGreedy (·.isDigit), .plusGreedy isSpaceJS]
def pat3Cap : List RItem := [.plusLazy isSkuChar]
def pat3Post : List RItem := [.starGreedy isSpaceJS, litCI '|']

/-- JS `String.prototype.trim` on the characters appearing here. -/
def trimChars (l : List Char) : List Char :=
  ((l.dropWhile isSpaceJS).reverse.dropWhile isSpaceJS).reverse

/-- The pure core of `PDFProcessor.extractSKUFromPage` (lines 50-71): given the
page's extracted text, try the three patterns in order and return the first
capture, trimmed; `null` when no pattern matches.  (The surrounding
try/catch returns `null` on text-extraction failure; text extraction itself
is the external collaborator and is represented by `Page.text`.) -/
def extractSKU (text : String) : Option String :=
  match findFirst pat1Pre pat1Cap pat1Post text.data with
  | some c => some (String.mk (trimChars c))
  | none =>
    match findFirst pat2Pre pat2Cap pat2Post text.data with
    | some c => some (String.mk (trimChars c))
    | none =>
      match findFirst pat3Pre pat3Cap pat3Post text.data with
      | some c => some (String.mk (trimChars c))
      | none => none

example : extractSKU "1 sp_megha red chiku | MFTEXO" = some "sp_megha red chiku" := by
  decide

/-!
### Settings, SKU sort stage and the pipeline of `processPDF`
-/

/-- The settings record consumed by `processPDF` (as built by the upload
route: booleans already coerced, `margin` kept as a string). -/
structure Settings where
  mergePdf : Bool
  addDateTime : Bool
  sortSku : Bool
  addText : Bool
  customText : String
  margin : String
  platform : String
deriving DecidableEq, Repr

/-- A hexadecimal digit, as accepted by `parseInt` with radix 16. -/
def isHexDigitJS (c : Char) : Bool :=
  c.isDigit || ('a' ≤ c.toLower && c.toLower ≤ 'f')

/-- The value of one hexadecimal digit. -/
def hexVal (c : Char) : Nat :=
  if c.isDigit then c.toNat - '0'.toNat else c.toLower.toNat - 'a'.toNat + 10

/-- The longest leading run of digits in the given base, or `NaN` when it is
empty. -/
def parseDigits (base : Nat) (digitP : Char → Bool) (val : Char → Nat)
    (sign : Int) (u : List Char) : Option Int :=
  let digits := u.takeWhile digitP
  if digits = [] then none
  else some (sign * (digits.foldl (fun n c => base * n + val c) 0 : Nat))

/-- `parseInt(s)` with no radix argument: skip JS whitespace, read an optional
sign, auto-detect a `0x`/`0X` prefix (hexadecimal), otherwise parse leading
decimal digits; `none` models `NaN`. -/
def parseIntJS (s : String) : Option Int :=
  let t := s.data.dropWhile isSpaceJS
  let (sign, u) : Int × List Char :=
    match t with
    | '-' :: r => (-1, r)
    | '+' :: r => (1, r)
    | r => (1, r)
  match u with
  | '0' :: x :: rest =>
    if x = 'x' || x = 'X' then parseDigits 16 isHexDigitJS hexVal sign rest
    else parseDigits 10 (·.isDigit) (fun c => c.toNat - '0'.toNat) sign u
  | _ => parseDigits 10 (·.isDigit) (fun c => c.toNat - '0'.toNat) sign u

/-- `String(i).padStart(4, '0')`. -/
def padStart4 (s : String) : String :=
  String.mk (List.replicate (4 - s.length) '0') ++ s

/-- The fallback sort key `` `zzz_no_sku_${String(i).padStart(4, '0')}` ``. -/
def fallbackKey (i : Nat) : String :=
  "zzz_no_sku_" ++ padStart4 (toString i)

/-- The `{ index, sku }` record pushed into `pageData` (line 125), together
with the page it indexes (what `copyPages(pdfDoc, [data.index])` copies). -/
structure SortEntry where
  index : Nat
  page : Page
  sku : String
deriving DecidableEq, Repr

/-- The sort key of page `i`: the extracted SKU, or the fallback key. -/
def skuKeyAt (i : Nat) (p : Page) : String :=
  match extractSKU p.text with
  | some sku => sku
  | none => fallbackKey i

/-- The `pageData` array built by the loop of lines 123-129. -/
def pageEntries (doc : Doc) : List SortEntry :=
  doc.enum.map (fun ip => ⟨ip.1, ip.2, skuKeyAt ip.1 ip.2⟩)

/-- `sku.toUpperCase()` as a character sequence (`toUpperCase` maps each
character; the keys here are ASCII). -/
def upperKey (s : String) : List Char :=
  s.data.map Char.toUpper

/-- What the sort relies on about the key comparison
`skuA.localeCompare(skuB)` of line 136: a total, transitive, decidably
computed weak order.  ICU collation is locale-dependent, so the general sort
theorems are stated for an arbitrary comparator with these properties —
which locale collations and plain code-point order both satisfy. -/
structure KeyOrder where
  le : List Char → List Char → Bool
  total : ∀ a b, le a b = true ∨ le b a = true
  trans : ∀ a b c, le a b = true → le b c = true → le a c = true

/-- Lexicographic code-point order: the executable comparator instance used
for the concrete runs of this development.  On every concrete key pair
compared here it orders identically to ICU collation (the deciding character
pairs are plain letters or digits). -/
def codeOrd : KeyOrder where
  le a b := decide (a ≤ b)
  total a b := by
    rcases le_total a b with h | h
    · exact Or.inl (decide_eq_true h)
    · exact Or.inr (decide_eq_true h)
  trans a b c hab hbc :=
    decide_eq_true (le_trans (of_decide_eq_true hab) (of_decide_eq_true hbc))

/-- The comparator of lines 133-137: case-insensitive comparison of the keys
(`toUpperCase`, then the comparator standing in for `localeCompare`). -/
def entryLE (K : KeyOrder) (a b : SortEntry) : Prop :=
  K.le (upperKey a.sku) (upperKey b.sku) = true

instance (K : KeyOrder) : DecidableRel (entryLE K) :=
  fun a b => inferInstanceAs (Decidable (K.le (upperKey a.sku) (upperKey b.sku) = true))

instance (K : KeyOrder) : IsTotal SortEntry (entryLE K) :=
  ⟨fun a b => K.total (upperKey a.sku) (upperKey b.sku)⟩

instance (K : KeyOrder) : IsTrans SortEntry (entryLE K) :=
  ⟨fun a b c => K.trans (upperKey a.sku) (upperKey b.sku) (upperKey c.sku)⟩

/-- `pageData.sort(comparator)`: JS `Array.prototype.sort` is stable, and with
a consistent comparator its output is the unique stable sorted permutation,
which stable insertion sort also produces. -/
def sortEntries (K : KeyOrder) (doc : Doc) : List SortEntry :=
  List.insertionSort (entryLE K) (pageEntries doc)

/-- Step 3 of `processPDF` (lines 117-149): build the key per page, sort, and
rebuild a new document by copying pages in sorted order (concrete comparator
instance: code-point order). -/
def sortStage (doc : Doc) : Doc :=
  (sortEntries codeOrd doc).map (·.page)

/-- Step 2 of `processPDF` (lines 106-114): flipkart takes the fixed-box
branch; otherwise a truthy, non-`"0"` margin string selects the margin crop
(`parseInt` returning `NaN` makes every per-page guard false, leaving the
document unchanged, which `none => doc` mirrors). -/
def cropStage (s : Settings) (doc : Doc) : Doc :=
  if s.platform = "flipkart" ∧ (getPlatformPreset s.platform).cropBox.isSome then
    match (getPlatformPreset s.platform).cropBox with
    | some cb => cropFlipkart doc cb
    | none => doc
  else if s.platform ≠ "flipkart" ∧ s.margin ≠ "" ∧ s.margin ≠ "0" then
    match parseIntJS s.margin with
    | some m => applyMarginCrop m doc
    | none => doc
  else doc

/-- Step 4, `addDateTime` (lines 230-256): draws the formatted current time on
every page; the clock string is a parameter of the run. -/
def addDateTimeStage (now : String) (doc : Doc) : Doc :=
  doc.map (fun p => { p with drawn := p.drawn ++ [now] })

/-- Step 5, `addCustomText` (lines 259-277): no-op when the text is empty or
whitespace-only, otherwise draws it on every page. -/
def addCustomTextStage (text : String) (doc : Doc) : Doc :=
  if text = "" ∨ String.mk (trimChars text.data) = "" then doc
  else doc.map (fun p => { p with drawn := p.drawn ++ [text] })

/-- One input file: the outcome of `fs.readFile` + `PDFDocument.load`,
either the loaded document or the failure's message. -/
abbrev FileInput := Except String Doc

/-- The merge loop of lines 89-94: files are read sequentially and the first
failure aborts; on success the pages are concatenated in file order. -/
def readAll : List FileInput → Except String (List Doc)
  | [] => .ok []
  | f :: fs => do
    let d ← f
    let ds ← readAll fs
    .ok (d :: ds)

/-- Step 1 of `processPDF` (lines 86-100): merge all files when `mergePdf` and
more than one file, otherwise load only `filePaths[0]` (an empty file list
makes `fs.readFile(undefined)` reject, hence the error case). -/
def loadStage (inputs : List FileInput) (s : Settings) : Except String Doc :=
  if s.mergePdf ∧ inputs.length > 1 then
    (readAll inputs).map (fun docs => docs.flatten)
  else
    match inputs.head? with
    | some f => f
    | none => .error "path must be a string"

/-- The try-block of `processPDF` (lines 79-173): the five stages in order,
ending with `pdfDoc.save()` (serialisation, identity on the page list). -/
def processPDFCore (now : String) (inputs : List FileInput) (s : Settings) :
    Except String Doc := do
  let doc0 ← loadStage inputs s
  let doc1 := cropStage s doc0
  let doc2 := if s.sortSku then sortStage doc1 else doc1
  let doc3 := if s.addDateTime then addDateTimeStage now doc2 else doc2
  let doc4 := if s.addText ∧ s.customText ≠ "" then
      addCustomTextStage s.customText doc3
    else doc3
  .ok doc4

/-- `PDFProcessor.processPDF` with its catch-block (lines 175-179): every
failure is re-thrown as `'PDF processing failed: ' + error.message`. -/
def processPDF (now : String) (inputs : List FileInput) (s : Settings) :
    Except String Doc :=
  match processPDFCore now inputs s with
  | .ok doc => .ok doc
  | .error e => .error ("PDF processing failed: " ++ e)

/-!
### Concrete sample data used by witnesses and counterexamples
-/

/-- An A4 page with full-page crop box and no extractable text. -/
def pageA : Page :=
  { width := 595, height := 842, cropBox := ⟨0, 0, 595, 842⟩, text := "", drawn := [] }

/-- A letter-size page variant. -/
def pageB : Page :=
  { width := 612, height := 792, cropBox := ⟨0, 0, 612, 792⟩, text := "", drawn := [] }

/-- Settings with everything off, flipkart platform, margin `"999"`. -/
def settingsFk : Settings :=
  { mergePdf := false, addDateTime := false, sortSku := false, addText := false,
    customText := "", margin := "999", platform := "flipkart" }

/-- Settings with merge on. -/
def settingsMerge : Settings :=
  { mergePdf := true, addDateTime := false, sortSku := false, addText := false,
    customText := "", margin := "50", platform := "custom" }

/-- Settings with merge off. -/
def settingsSingle : Settings :=
  { mergePdf := false, addDateTime := false, sortSku := false, addText := false,
    customText := "", margin := "50", platform := "custom" }

/-!
### Claims
-/

/-- **C3**: for every page of width `w` and height `h` and every integer margin
`m`, the margin crop sets the page's crop box to `(m, m, w - 2m, h - 2m)` when
both `w - 2m > 0` and `h - 2m > 0`, and otherwise leaves the page (hence its
crop box) unchanged; the function is total, so no error is raised. -/
theorem C3_margin_crop_guard (p : Page) (m : Int) :
    (0 < p.width - 2 * (m : ℚ) ∧ 0 < p.height - 2 * (m : ℚ) →
      applyMarginCropPage m p =
        { p with cropBox := ⟨(m : ℚ), (m : ℚ), p.width - 2 * (m : ℚ), p.height - 2 * (m : ℚ)⟩ }) ∧
    (¬(0 < p.width - 2 * (m : ℚ) ∧ 0 < p.height - 2 * (m : ℚ)) →
      applyMarginCropPage m p = p) := by
  constructor <;> intro h
  · simp only [applyMarginCropPage, setCropBox]
    rw [if_pos h]
  · simp only [applyMarginCropPage]
    rw [if_neg h]

/-- Witness for C3: margin 40 on an A4 page crops to `(40, 40, 515, 762)`;
margin 500 (too large) leaves the page unchanged. -/
theorem C3_margin_crop_guard_witness :
    applyMarginCropPage 40 pageA =
      { pageA with cropBox := ⟨(40 : ℚ), (40 : ℚ),
          pageA.width - 2 * ((40 : Int) : ℚ), pageA.height - 2 * ((40 : Int) : ℚ)⟩ } ∧
    applyMarginCropPage 500 pageA = pageA :=
  ⟨(C3_margin_crop_guard pageA 40).1 (by norm_num [pageA]),
   (C3_margin_crop_guard pageA 500).2 (by norm_num [pageA])⟩

/-- On every platform string that is not an `Object.prototype` property name,
the own-property model and the full JS lookup agree. -/
lemma getPlatformPresetJS_agree (platform : String)
    (h : platform ∉ objectPrototypeKeys) :
    getPlatformPresetJS platform = .preset (getPlatformPreset platform) := by
  unfold getPlatformPresetJS cropPresetsGet getPlatformPreset
  cases hc : CROP_PRESETS platform with
  | some p => rfl
  | none => simp [h]

/-- **C6 (counterexample)**: `"constructor"` is not one of the five preset
keys, yet `CROP_PRESETS["constructor"]` finds the truthy inherited
`Object.prototype.constructor`, so `||` keeps it and `getPlatformPreset`
returns that inherited member — not the custom preset with margin 50 —
refuting "otherwise returns the custom preset with margin 50". -/
theorem C6_counterexample :
    "constructor" ∉ (["flipkart", "meesho", "amazon", "citymall", "custom"] : List String) ∧
    getPlatformPresetJS "constructor" = .inherited "constructor" ∧
    getPlatformPresetJS "constructor" ≠ .preset { margin := some 50 } := by
  decide

/-- **C6 (amended)**: `getPlatformPreset` returns the mapped preset for the
five known platforms; for a platform naming an `Object.prototype` member the
bracket lookup finds that truthy inherited value and `||` keeps it, so the
inherited member — not the custom preset — is returned; for every other
string it returns the custom preset (margin 50).  It is a total pure
function either way. -/
theorem C6_getPlatformPreset_prototype :
    getPlatformPresetJS "flipkart" = .preset flipkartPreset ∧
    getPlatformPresetJS "meesho" = .preset { margin := some 40 } ∧
    getPlatformPresetJS "amazon" = .preset { margin := some 45 } ∧
    getPlatformPresetJS "citymall" = .preset { margin := some 35 } ∧
    getPlatformPresetJS "custom" = .preset { margin := some 50 } ∧
    (∀ platform : String, platform ∈ objectPrototypeKeys →
      getPlatformPresetJS platform = .inherited platform) ∧
    (∀ platform : String,
      platform ∉ (["flipkart", "meesho", "amazon", "citymall", "custom"] : List String) →
      platform ∉ objectPrototypeKeys →
      getPlatformPresetJS platform = .preset { margin := some 50 }) := by
  refine ⟨by decide, by decide, by decide, by decide, by decide, ?_, ?_⟩
  · intro platform hp
    fin_cases hp <;> rfl
  · intro platform h5 hproto
    simp only [List.mem_cons, List.not_mem_nil, or_false, not_or] at h5
    obtain ⟨h1, h2, h3, h4, h5x⟩ := h5
    unfold getPlatformPresetJS cropPresetsGet CROP_PRESETS
    simp [h1, h2, h3, h4, h5x, hproto]

/-- Witness for C6 (amended): `"toString"` resolves to the inherited
`Object.prototype.toString`, while `"unknown-platform"` falls through to the
custom preset with margin 50. -/
theorem C6_getPlatformPreset_prototype_witness :
    getPlatformPresetJS "toString" = .inherited "toString" ∧
    getPlatformPresetJS "unknown-platform" = .preset { margin := some 50 } :=
  ⟨C6_getPlatformPreset_prototype.2.2.2.2.2.1 "toString" (by decide),
   C6_getPlatformPreset_prototype.2.2.2.2.2.2 "unknown-platform" (by decide) (by decide)⟩

/-- **C7**: neither crop mode (fixed-box flipkart crop, margin crop) nor the
whole crop stage changes the number of pages of the document. -/
theorem C7_crop_preserves_page_count :
    (∀ (doc : Doc) (cb : CropBoxSpec), (cropFlipkart doc cb).length = doc.length) ∧
    (∀ (m : Int) (doc : Doc), (applyMarginCrop m doc).length = doc.length) ∧
    (∀ (s : Settings) (doc : Doc), (cropStage s doc).length = doc.length) := by
  refine ⟨fun doc cb => by simp [cropFlipkart], fun m doc => by simp [applyMarginCrop], ?_⟩
  intro s doc
  unfold cropStage
  split
  · split <;> simp [cropFlipkart]
  · split
    · split <;> simp [applyMarginCrop]
    · rfl

/-- The margin crop reads the media-box size, which it never modifies, so a
second application with the same margin takes the same branch with the same
values and rewrites the same crop box. -/
lemma marginCropPage_idem (m : Int) (p : Page) :
    applyMarginCropPage m (applyMarginCropPage m p) = applyMarginCropPage m p := by
  by_cases h : 0 < p.width - 2 * (m : ℚ) ∧ 0 < p.height - 2 * (m : ℚ)
  · have h1 : applyMarginCropPage m p =
        { p with cropBox := ⟨(m : ℚ), (m : ℚ), p.width - 2 * (m : ℚ), p.height - 2 * (m : ℚ)⟩ } := by
      simp only [applyMarginCropPage, setCropBox]
      rw [if_pos h]
    rw [h1]
    simp only [applyMarginCropPage, setCropBox]
    rw [if_pos h]
  · have h1 : applyMarginCropPage m p = p := by
      simp only [applyMarginCropPage]
      rw [if_neg h]
    rw [h1, h1]

/-- **C9 (counterexample)**: with margin 40 on an A4 page, the second
application of the margin crop produces exactly the same page, hence the same
crop box, as the first; in particular the crop box is not strictly narrower,
refuting the claim that double application compounds. -/
theorem C9_counterexample :
    applyMarginCropPage 40 (applyMarginCropPage 40 pageA) = applyMarginCropPage 40 pageA ∧
    ¬ ((applyMarginCropPage 40 (applyMarginCropPage 40 pageA)).cropBox.width
        < (applyMarginCropPage 40 pageA).cropBox.width) :=
  ⟨marginCropPage_idem 40 pageA, by rw [marginCropPage_idem 40 pageA]; exact lt_irrefl _⟩

/-- **C9 (amended)**: applying the margin crop twice with the same margin `m`
yields exactly the same page as applying it once, for every `m` — the crop is
idempotent, because the width/height it reads come from the media box, which
`setCropBox` does not modify. -/
theorem C9_margin_crop_idempotent :
    (∀ (m : Int) (p : Page),
      applyMarginCropPage m (applyMarginCropPage m p) = applyMarginCropPage m p) ∧
    (∀ (m : Int) (doc : Doc),
      applyMarginCrop m (applyMarginCrop m doc) = applyMarginCrop m doc) :=
  ⟨marginCropPage_idem, fun m doc => by
    simp only [applyMarginCrop, List.map_map]
    exact List.map_congr_left (fun p _ => marginCropPage_idem m p)⟩

/-- **C10**: `cropFlipkart` sets every copied page's crop box to the hardcoded
rectangle `(165, 460, 265, 360)` whatever `cropBox` argument it receives,
while the flipkart entry of `CROP_PRESETS` stores the different rectangle
`(272, 253, 346, 553)`; the stored preset box is never the one applied. -/
theorem C10_cropFlipkart_hardcoded :
    (∀ (doc : Doc) (cb : CropBoxSpec),
      cropFlipkart doc cb = doc.map (fun p => { p with cropBox := ⟨165, 460, 265, 360⟩ })) ∧
    (getPlatformPreset "flipkart").cropBox.map (fun cb => (cb.x, cb.y, cb.width, cb.height))
      = some ((272 : ℚ), (253 : ℚ), (346 : ℚ), (553 : ℚ)) ∧
    ((165 : ℚ), (460 : ℚ), (265 : ℚ), (360 : ℚ)) ≠
      ((272 : ℚ), (253 : ℚ), (346 : ℚ), (553 : ℚ)) :=
  ⟨fun _ _ => rfl, by decide, by decide⟩

/-- **C2**: when `settings.platform` is `"flipkart"`, the crop stage gives
every page the same fixed crop rectangle, and changing the `margin` setting to
any other value leaves the result unchanged. -/
theorem C2_flipkart_ignores_margin (s : Settings) (doc : Doc)
    (h : s.platform = "flipkart") :
    cropStage s doc = doc.map (fun p => { p with cropBox := ⟨165, 460, 265, 360⟩ }) ∧
    (∀ margin : String, cropStage { s with margin := margin } doc = cropStage s doc) := by
  have hstage : ∀ s2 : Settings, s2.platform = "flipkart" →
      cropStage s2 doc = doc.map (fun p => { p with cropBox := ⟨165, 460, 265, 360⟩ }) := by
    intro s2 h2
    simp [cropStage, h2, getPlatformPreset, CROP_PRESETS, flipkartPreset, cropFlipkart,
      setCropBox]
  exact ⟨hstage s h, fun margin => by rw [hstage { s with margin := margin } h, hstage s h]⟩

/-- Witness for C2: with flipkart settings carrying margin `"999"`, every page
gets the fixed rectangle, and replacing the margin by `"7"` changes nothing. -/
theorem C2_flipkart_ignores_margin_witness :
    cropStage settingsFk [pageA] =
      ([pageA] : Doc).map (fun p => { p with cropBox := ⟨165, 460, 265, 360⟩ }) ∧
    cropStage { settingsFk with margin := "7" } [pageA] = cropStage settingsFk [pageA] :=
  ⟨(C2_flipkart_ignores_margin settingsFk [pageA] rfl).1,
   (C2_flipkart_ignores_margin settingsFk [pageA] rfl).2 "7"⟩

/-- A list of input files that all read and load successfully. -/
def okInputs (files : List Doc) : List FileInput :=
  files.map Except.ok

/-- Reading a list of successfully loadable files succeeds with exactly those
documents, in order. -/
lemma readAll_ok (files : List Doc) : readAll (okInputs files) = .ok files := by
  induction files with
  | nil => rfl
  | cons f fs ih =>
    simp only [okInputs, List.map_cons] at ih ⊢
    simp only [readAll, ih]
    rfl

/-- **C1**: when `mergePdf` is set and there is more than one input file, the
document after the load/merge stage is the concatenation of the input files'
pages — input-file order, each file's own page order preserved — and its page
count is the sum of the files' page counts; when `mergePdf` is not set, only
the first file is loaded, so the page count is the first file's. -/
theorem C1_load_merge (files : List Doc) (s : Settings) :
    (s.mergePdf = true → files.length > 1 →
      loadStage (okInputs files) s = .ok files.flatten ∧
      files.flatten.length = (files.map List.length).sum) ∧
    (s.mergePdf = false → ∀ (f0 : Doc) (rest : List Doc), files = f0 :: rest →
      loadStage (okInputs files) s = .ok f0 ∧
      ∀ d : Doc, loadStage (okInputs files) s = .ok d → d.length = f0.length) := by
  constructor
  · intro hm hlen
    have hcond : s.mergePdf ∧ (okInputs files).length > 1 := by
      simpa [hm, okInputs] using hlen
    constructor
    · simp only [loadStage, if_pos hcond, readAll_ok, Except.map]
    · simp
  · intro hm f0 rest hfiles
    have hcond : ¬(s.mergePdf ∧ (okInputs files).length > 1) := by
      simp [hm]
    subst hfiles
    have h1 : loadStage (okInputs (f0 :: rest)) s = .ok f0 := by
      simp only [loadStage, if_neg hcond]
      rfl
    refine ⟨h1, ?_⟩
    intro d hd
    rw [h1] at hd
    cases hd
    rfl

/-- Witness for C1: merging `[[pageA], [pageB, pageA]]` yields the three pages
concatenated (count 3 = 1 + 2); without merge only the first file's single
page is loaded. -/
theorem C1_load_merge_witness :
    (loadStage (okInputs [[pageA], [pageB, pageA]]) settingsMerge
        = .ok ([[pageA], [pageB, pageA]] : List Doc).flatten ∧
      ([[pageA], [pageB, pageA]] : List Doc).flatten.length
        = (([[pageA], [pageB, pageA]] : List Doc).map List.length).sum) ∧
    loadStage (okInputs [[pageA], [pageB, pageA]]) settingsSingle = .ok [pageA] :=
  ⟨(C1_load_merge [[pageA], [pageB, pageA]] settingsMerge).1 rfl (by decide),
   ((C1_load_merge [[pageA], [pageB, pageA]] settingsSingle).2 rfl
      [pageA] [[pageB, pageA]] rfl).1⟩

/-- **C8**: whenever any stage of the pipeline fails with message `e`,
`processPDF` yields the single error `"PDF processing failed: " ++ e` and
never returns output. -/
theorem C8_uniform_error_wrapping (now : String) (inputs : List FileInput)
    (s : Settings) (e : String)
    (h : processPDFCore now inputs s = .error e) :
    processPDF now inputs s = .error ("PDF processing failed: " ++ e) ∧
    ∀ doc : Doc, processPDF now inputs s ≠ .ok doc := by
  refine ⟨by simp [processPDF, h], ?_⟩
  intro doc hc
  simp [processPDF, h] at hc

/-- Witness for C8: a single unreadable input makes the core fail with the
underlying message `"boom"`, and `processPDF` reports exactly
`"PDF processing failed: boom"` instead of any output. -/
theorem C8_uniform_error_wrapping_witness :
    processPDF "now" [Except.error "boom"] settingsSingle
      = .error ("PDF processing failed: " ++ "boom") ∧
    processPDF "now" [Except.error "boom"] settingsSingle ≠ .ok [] :=
  ⟨(C8_uniform_error_wrapping "now" [Except.error "boom"] settingsSingle "boom" rfl).1,
   (C8_uniform_error_wrapping "now" [Except.error "boom"] settingsSingle "boom" rfl).2 []⟩

/-- **C5**: `extractSKUFromPage` tries its three patterns in strict priority
order — pattern 2 is consulted only when pattern 1 found no match, pattern 3
only when both failed — returns the first pattern's capture trimmed of
surrounding whitespace, and `null` when no pattern captures; on the text
`"1 sp_megha red chiku | MFTEXO"` it returns `"sp_megha red chiku"`. -/
theorem C5_extractSKU_priority :
    extractSKU "1 sp_megha red chiku | MFTEXO" = some "sp_megha red chiku" ∧
    (∀ (t : String) (c : List Char),
      findFirst pat1Pre pat1Cap pat1Post t.data = some c →
      extractSKU t = some (String.mk (trimChars c))) ∧
    (∀ (t : String) (c : List Char),
      findFirst pat1Pre pat1Cap pat1Post t.data = none →
      findFirst pat2Pre pat2Cap pat2Post t.data = some c →
      extractSKU t = some (String.mk (trimChars c))) ∧
    (∀ (t : String) (c : List Char),
      findFirst pat1Pre pat1Cap pat1Post t.data = none →
      findFirst pat2Pre pat2Cap pat2Post t.data = none →
      findFirst pat3Pre pat3Cap pat3Post t.data = some c →
      extractSKU t = some (String.mk (trimChars c))) ∧
    (∀ t : String,
      findFirst pat1Pre pat1Cap pat1Post t.data = none →
      findFirst pat2Pre pat2Cap pat2Post t.data = none →
      findFirst pat3Pre pat3Cap pat3Post t.data = none →
      extractSKU t = none) := by
  refine ⟨by decide, ?_, ?_, ?_, ?_⟩
  · intro t c h1
    simp [extractSKU, h1]
  · intro t c h1 h2
    simp [extractSKU, h1, h2]
  · intro t c h1 h2 h3
    simp [extractSKU, h1, h2, h3]
  · intro t h1 h2 h3
    simp [extractSKU, h1, h2, h3]

/-- Witness for C5: on `"QTY 2 blue-owl-lamp | ABC123"` pattern 1 already
captures `"blue-owl-lamp"` (a digit-prefixed, pipe-delimited fragment), and
`extractSKU` returns it trimmed. -/
theorem C5_extractSKU_priority_witness :
    extractSKU "QTY 2 blue-owl-lamp | ABC123"
      = some (String.mk (trimChars "blue-owl-lamp".data)) :=
  C5_extractSKU_priority.2.1 "QTY 2 blue-owl-lamp | ABC123" "blue-owl-lamp".data (by decide)

/-!
### C4: placement of no-SKU pages in the sorted output
-/

